import Mathlib

/-!
Verification development for the promotion evaluation engine of the
cv-merch-backend repository (`promotions-engine.js`).

The engine is embedded shallowly:

* JavaScript numbers are modelled as exact rationals (`ℚ`) for money and as
  `Nat` for item counts, thresholds and usage counters.
* Nullable / optional JSON fields are modelled with `Option`; JavaScript
  truthiness of numbers (`0` and `null` are falsy) and of strings (`""` and
  `null` are falsy) is modelled by explicit helpers.
* Functions that can throw a `TypeError` on a `null` field access
  (`checkConditions`, `calculatePromoDiscount`, `calculateProgress`,
  `calculatePromotions`) return `Option`; `none` models the thrown error.
* The database fetch in `calculatePromotions` (active promotions ordered by
  descending priority, and the per-user usage count query) is abstracted:
  the embedded function takes the fetched promotion list and a usage-count
  lookup (promotion id ↦ count for the given customer) as parameters.
* JavaScript's `Array.prototype.sort` is specified to be stable; it is
  modelled by the stable `List.insertionSort` (any two stable sorts under the
  same total preorder comparator produce the same list).
-/

namespace MerchPromo

/-- JavaScript truthiness for an optional count field (`null` and `0` are falsy). -/
def natTruthy : Option Nat → Bool
  | none => false
  | some n => n != 0

/-- JavaScript truthiness for an optional numeric field (`null` and `0` are falsy). -/
def qTruthy : Option ℚ → Bool
  | none => false
  | some q => q != 0

/-- JavaScript truthiness for an optional string field (`null` and `""` are falsy). -/
def strTruthy : Option String → Bool
  | none => false
  | some s => s != ""

/-- JavaScript `x || d` on an optional numeric field. -/
def jsOrQ (o : Option ℚ) (d : ℚ) : ℚ :=
  match o with
  | none => d
  | some x => if x = 0 then d else x

/-- JavaScript coercion of a possibly-`null` number used in arithmetic
(`null` coerces to `0`). -/
def jsNum (o : Option ℚ) : ℚ := o.getD 0

/-- Product record as joined onto cart lines (and as `giftProduct`).
Only the fields the engine reads are modelled; `category` is absent from the
`Product` table, so on real data it is `none`. -/
structure Product where
  name : String
  category : Option String := none
  deriving DecidableEq, Repr

/-- One cart line: `{productId, color, size, quantity, unitPrice, product}`. -/
structure CartItem where
  productId : String
  size : String
  color : String
  quantity : Nat := 1
  unitPrice : ℚ
  product : Product
  deriving DecidableEq, Repr

/-- Cart snapshot built by the caller: the line list plus the aggregate
fields `subtotal`, `totalItems` (sum of line quantities) and `shippingCost`. -/
structure Cart where
  items : List CartItem
  subtotal : ℚ
  totalItems : Nat
  shippingCost : Option ℚ := none
  deriving DecidableEq, Repr

/-- The `conditions.attributes` JSON object.  The evaluator reads
`mustContainAll`, `sameTaglia`, `sameColor` and `sameProduct`; the JSON may
also carry a `sameSize` key, which the evaluator never reads. -/
structure CondAttributes where
  mustContainAll : Bool := false
  sameTaglia : Bool := false
  sameColor : Bool := false
  sameProduct : Bool := false
  sameSize : Bool := false
  deriving DecidableEq, Repr

/-- The `conditions` JSON object of a promotion; every field is optional. -/
structure Conditions where
  minQuantity : Option Nat := none
  maxQuantity : Option Nat := none
  minCartValue : Option ℚ := none
  maxCartValue : Option ℚ := none
  categories : Option (List String) := none
  products : Option (List String) := none
  attributes : Option CondAttributes := none
  deriving DecidableEq, Repr

/-- One entry of a progressive `discountTiers` list: `{threshold, discount, type}`. -/
structure Tier where
  threshold : Nat
  discount : ℚ
  type : String
  deriving DecidableEq, Repr

/-- The `discountTiers` JSON payload: either the cumulative-mode object
`{mode: 'cumulative', perUnit, discount, type, maxDiscount}` or a list of
threshold tiers. -/
inductive TiersConfig where
  | cumulative (perUnit : Nat) (type : String) (discount : ℚ) (maxDiscount : Option ℚ)
  | progressive (tiers : List Tier)
  deriving DecidableEq, Repr

/-- The `bogoConfig` JSON payload: `{buy, get, discountOnGet, applyOnCheapest}`. -/
structure BogoConfig where
  buy : Nat
  get : Nat
  discountOnGet : ℚ
  applyOnCheapest : Bool
  deriving DecidableEq, Repr

/-- A promotion record as the engine reads it.  `conditions` is an `Option`
because the JSONB payload may be a JSON `null`, on which the engine throws. -/
structure Promotion where
  id : String
  name : String
  type : String
  priority : Int := 0
  discountValue : Option ℚ := none
  discountTiers : Option TiersConfig := none
  bogoConfig : Option BogoConfig := none
  giftProduct : Option Product := none
  conditions : Option Conditions := some {}
  maxUsesTotal : Option Nat := none
  maxUsesPerUser : Option Nat := none
  usageCount : Nat := 0
  combinesWith : Option (List String) := none
  deriving DecidableEq, Repr

/-- The `details` object attached to a discount result, one shape per branch. -/
inductive Details where
  | percentage (value : Option ℚ)
  | fixed (value : Option ℚ)
  | priceFixed (finalPrice : Option ℚ)
  | cumulative (groups : Nat) (perUnit : Nat) (discountPerGroup : ℚ)
  | tiered (threshold : Nat) (discountValue : ℚ) (discountType : String)
  | bogo (buy : Nat) (get : Nat) (discountPercent : ℚ) (groups : Nat)
      (discountedItems : List (String × ℚ × ℚ))
  | freeShipping
  | freeGift (giftName : Option String)
  | empty
  deriving DecidableEq, Repr

/-- Result of `calculatePromoDiscount`: `{discount, details, giftProduct?}`. -/
structure DiscountResult where
  discount : ℚ
  giftProduct : Option Product := none
  details : Details
  deriving DecidableEq, Repr

/-- Body of `checkConditions` once `promo.conditions` is known to be an
object: the sequence of early-return checks, as a conjunction. -/
def condMatches (cond : Conditions) (cart : Cart) : Bool :=
  !(natTruthy cond.minQuantity && decide (cart.totalItems < cond.minQuantity.getD 0)) &&
  !(natTruthy cond.maxQuantity && decide (cart.totalItems > cond.maxQuantity.getD 0)) &&
  !(qTruthy cond.minCartValue && decide (cart.subtotal < cond.minCartValue.getD 0)) &&
  !(qTruthy cond.maxCartValue && decide (cart.subtotal > cond.maxCartValue.getD 0)) &&
  (match cond.categories with
   | none => true
   | some cats =>
     cats.isEmpty ||
       cats.any (fun cat => (cart.items.map (fun i => i.product.category)).contains (some cat))) &&
  (match cond.products with
   | none => true
   | some pids =>
     pids.isEmpty ||
       (if (cond.attributes.map (fun a => a.mustContainAll)).getD false then
         pids.all (fun pid => (cart.items.map (fun i => i.productId)).contains pid)
       else
         pids.any (fun pid => (cart.items.map (fun i => i.productId)).contains pid))) &&
  (match cond.attributes with
   | none => true
   | some attrs =>
     (!attrs.sameTaglia || decide ((cart.items.map (fun i => i.size)).dedup.length ≤ 1)) &&
     (!attrs.sameColor || decide ((cart.items.map (fun i => i.color)).dedup.length ≤ 1)) &&
     (!attrs.sameProduct || decide ((cart.items.map (fun i => i.productId)).dedup.length ≤ 1)))

/-- Embedding of `checkConditions(promo, cart)`.  Reading `promo.conditions.minQuantity`
throws when `conditions` is `null`; that is the `none` result. -/
def checkConditions (promo : Promotion) (cart : Cart) : Option Bool :=
  promo.conditions.map (fun cond => condMatches cond cart)

/-- Embedding of `calculateTieredDiscount(tiers, cart)`. -/
def calculateTieredDiscount (tiers : TiersConfig) (cart : Cart) : DiscountResult :=
  match tiers with
  | .cumulative perUnit tierType discount maxDiscount =>
    let groups := cart.totalItems / perUnit
    if tierType = "PERCENTAGE" then
      let totalPercentage := (groups : ℚ) * discount
      let cappedPercentage := min totalPercentage (jsOrQ maxDiscount 100)
      { discount := cart.subtotal * (cappedPercentage / 100),
        details := .cumulative groups perUnit discount }
    else
      let base := (groups : ℚ) * discount
      { discount := if qTruthy maxDiscount then min base (jsNum maxDiscount) else base,
        details := .cumulative groups perUnit discount }
  | .progressive tlist =>
    let sortedTiers := tlist.insertionSort (fun a b => b.threshold ≤ a.threshold)
    match sortedTiers.find? (fun t => cart.totalItems ≥ t.threshold) with
    | none => { discount := 0, details := .empty }
    | some t =>
      { discount := if t.type = "PERCENTAGE" then cart.subtotal * (t.discount / 100) else t.discount,
        details := .tiered t.threshold t.discount t.type }

/-- The price-sorted copy of the cart lines used by the BOGO calculator
(ascending unit price when `applyOnCheapest`, else descending; JS sort is
stable). -/
def bogoSortedItems (config : BogoConfig) (cart : Cart) : List CartItem :=
  if config.applyOnCheapest then
    cart.items.insertionSort (fun a b => a.unitPrice ≤ b.unitPrice)
  else
    cart.items.insertionSort (fun a b => b.unitPrice ≤ a.unitPrice)

/-- Embedding of `calculateBOGODiscount(config, cart)`: one discounted line record per
complete group, at position `i * totalUnits + buy` of the sorted line list;
positions past the end of the list contribute nothing. -/
def calculateBOGODiscount (config : BogoConfig) (cart : Cart) : DiscountResult :=
  let totalUnits := config.buy + config.get
  let groups := cart.totalItems / totalUnits
  if groups = 0 then { discount := 0, details := .empty }
  else
    let sortedItems := bogoSortedItems config cart
    let hits := (List.range groups).filterMap (fun i => sortedItems[i * totalUnits + config.buy]?)
    { discount := (hits.map (fun item => item.unitPrice * (config.discountOnGet / 100))).sum,
      details := .bogo config.buy config.get config.discountOnGet groups
        (hits.map (fun item =>
          (item.product.name, item.unitPrice, item.unitPrice * (config.discountOnGet / 100)))) }

/-- Embedding of `calculatePromoDiscount(promo, cart)`: dispatch on the promotion type
string.  `TIERED` with a `null` `discountTiers` and `BOGO` with a `null`
`bogoConfig` throw a `TypeError` (`none`); every other branch returns. -/
def calculatePromoDiscount (promo : Promotion) (cart : Cart) : Option DiscountResult :=
  if promo.type = "PERCENTAGE" then
    some { discount := cart.subtotal * (jsNum promo.discountValue / 100),
           details := .percentage promo.discountValue }
  else if promo.type = "FIXED" then
    some { discount := min (jsNum promo.discountValue) cart.subtotal,
           details := .fixed promo.discountValue }
  else if promo.type = "PRICE_FIXED" then
    some { discount := max 0 (cart.subtotal - jsNum promo.discountValue),
           details := .priceFixed promo.discountValue }
  else if promo.type = "TIERED" then
    match promo.discountTiers with
    | none => none
    | some tiers => some (calculateTieredDiscount tiers cart)
  else if promo.type = "BOGO" then
    match promo.bogoConfig with
    | none => none
    | some config => some (calculateBOGODiscount config cart)
  else if promo.type = "FREE_SHIPPING" then
    some { discount := jsOrQ cart.shippingCost 0, details := .freeShipping }
  else if promo.type = "FREE_GIFT" then
    some { discount := 0, giftProduct := promo.giftProduct,
           details := .freeGift (promo.giftProduct.map (fun g => g.name)) }
  else
    some { discount := 0, details := .empty }

/-- Entry of `appliedPromotions`: `{id, name, type, discount, details}`. -/
structure AppliedPromo where
  id : String
  name : String
  type : String
  discount : ℚ
  details : Details
  deriving DecidableEq, Repr

/-- The summary record pushed onto `appliedPromotions` for an accepted promotion. -/
def mkApplied (promo : Promotion) (result : DiscountResult) : AppliedPromo :=
  { id := promo.id, name := promo.name, type := promo.type,
    discount := result.discount, details := result.details }

/-- Mutable state of the selection loop in `calculatePromotions`. -/
structure LoopState where
  totalDiscount : ℚ
  appliedPromotions : List AppliedPromo
  giftProducts : List Product
  processedPromoIds : List String
  deriving DecidableEq, Repr

/-- The check `promo.maxUsesTotal && promo.usageCount >= promo.maxUsesTotal`. -/
def usageLimitReject (promo : Promotion) : Bool :=
  natTruthy promo.maxUsesTotal && decide (promo.usageCount ≥ promo.maxUsesTotal.getD 0)

/-- The per-user check: `promo.maxUsesPerUser && userEmail` guards the lookup,
then `userUsageCount >= promo.maxUsesPerUser`. -/
def userLimitReject (promo : Promotion) (userEmail : Option String)
    (userUsage : String → Nat) : Bool :=
  natTruthy promo.maxUsesPerUser && strTruthy userEmail &&
    decide (userUsage promo.id ≥ promo.maxUsesPerUser.getD 0)

/-- The check `promo.combinesWith && promo.combinesWith.length > 0`. -/
def canCombine (promo : Promotion) : Bool :=
  match promo.combinesWith with
  | none => false
  | some l => !l.isEmpty

/-- State update when a promotion is accepted: add its discount, push the
summary record and any gift, and mark the id processed. -/
def applyPromo (st : LoopState) (promo : Promotion) (result : DiscountResult) : LoopState :=
  { totalDiscount := st.totalDiscount + result.discount,
    appliedPromotions := st.appliedPromotions ++ [mkApplied promo result],
    giftProducts := st.giftProducts ++ result.giftProduct.toList,
    processedPromoIds := st.processedPromoIds ++ [promo.id] }

/-- The `for (const promo of activePromos)` loop of `calculatePromotions`:
skip already-processed ids, apply the usage-limit and per-user checks, check
conditions, compute the discount, accept on positive discount or gift, and
break when the accepted promotion is not combinable.  `none` models a thrown
`TypeError` from `checkConditions` or `calculatePromoDiscount`. -/
def selectLoop (cart : Cart) (userEmail : Option String) (userUsage : String → Nat) :
    List Promotion → LoopState → Option LoopState
  | [], st => some st
  | promo :: rest, st =>
    if st.processedPromoIds.contains promo.id then
      selectLoop cart userEmail userUsage rest st
    else if usageLimitReject promo then
      selectLoop cart userEmail userUsage rest st
    else if userLimitReject promo userEmail userUsage then
      selectLoop cart userEmail userUsage rest st
    else
      match checkConditions promo cart with
      | none => none
      | some false => selectLoop cart userEmail userUsage rest st
      | some true =>
        match calculatePromoDiscount promo cart with
        | none => none
        | some result =>
          if decide (result.discount > 0) || result.giftProduct.isSome then
            let st' := applyPromo st promo result
            if canCombine promo then selectLoop cart userEmail userUsage rest st'
            else some st'
          else
            selectLoop cart userEmail userUsage rest st

/-- Output of `calculatePromotions`. -/
structure PromoOutcome where
  totalDiscount : ℚ
  appliedPromotions : List AppliedPromo
  giftProducts : List Product
  finalTotal : ℚ
  deriving DecidableEq, Repr

/-- Embedding of `calculatePromotions(cart, userEmail, prisma)`.  The Prisma fetch is
abstracted: `activePromos` is the already-filtered list ordered by descending
priority, and `userUsage` is the per-user usage-count lookup for the given
customer.  After the loop the aggregate discount is clamped at
`cart.subtotal` and `finalTotal = cart.subtotal - totalDiscount`. -/
def calculatePromotions (cart : Cart) (userEmail : Option String)
    (userUsage : String → Nat) (activePromos : List Promotion) : Option PromoOutcome :=
  match selectLoop cart userEmail userUsage activePromos
      { totalDiscount := 0, appliedPromotions := [], giftProducts := [],
        processedPromoIds := [] } with
  | none => none
  | some st =>
    let totalDiscount :=
      if st.totalDiscount > cart.subtotal then cart.subtotal else st.totalDiscount
    some { totalDiscount := totalDiscount,
           appliedPromotions := st.appliedPromotions,
           giftProducts := st.giftProducts,
           finalTotal := cart.subtotal - totalDiscount }

/-- Shared result shape of `calculateProgress` (the Italian UI `message`
string, pure presentation, is not modelled). -/
structure Progress where
  percentage : ℚ
  remaining : ℚ
  nextThreshold : Option ℚ
  deriving DecidableEq, Repr

/-- The quantity / cart-value progress dimension: overwrite the shared
result; `nextThreshold` is only written in the below-target branch. -/
def qtyValueStep (current target : ℚ) (p : Progress) : Progress :=
  if current < target then
    { percentage := current / target * 100,
      remaining := target - current,
      nextThreshold := some target }
  else
    { p with percentage := 100, remaining := 0 }

/-- The tiered progress dimension: runs only for a `TIERED` promotion whose
`discountTiers` is an array; locates the first tier above the current count
in the ascending sort and measures position inside the bracket. -/
def tieredStep (promo : Promotion) (cart : Cart) (p : Progress) : Progress :=
  if promo.type = "TIERED" then
    match promo.discountTiers with
    | some (.progressive tlist) =>
      let sortedTiers := tlist.insertionSort (fun a b => a.threshold ≤ b.threshold)
      match sortedTiers.find? (fun t => cart.totalItems < t.threshold) with
      | some nextTier =>
        let baseThreshold : ℚ :=
          match sortedTiers.find? (fun t => t.threshold ≤ cart.totalItems) with
          | some prevTier => (prevTier.threshold : ℚ)
          | none => 0
        let range : ℚ := (nextTier.threshold : ℚ) - baseThreshold
        let progressInRange : ℚ := (cart.totalItems : ℚ) - baseThreshold
        { percentage := progressInRange / range * 100,
          remaining := (nextTier.threshold : ℚ) - (cart.totalItems : ℚ),
          nextThreshold := some (nextTier.threshold : ℚ) }
      | none => { p with percentage := 100 }
    | _ => p
  else p

/-- Embedding of `calculateProgress(cart, promo)`: up to three dimensions write the shared
result in order quantity, cart value, tiered.  Reading a field of a `null`
`conditions` throws (`none`). -/
def calculateProgress (cart : Cart) (promo : Promotion) : Option Progress :=
  promo.conditions.map (fun cond =>
    let p0 : Progress := { percentage := 0, remaining := 0, nextThreshold := none }
    let p1 := if natTruthy cond.minQuantity then
        qtyValueStep (cart.totalItems : ℚ) ((cond.minQuantity.getD 0 : Nat) : ℚ) p0
      else p0
    let p2 := if qTruthy cond.minCartValue then
        qtyValueStep cart.subtotal (cond.minCartValue.getD 0) p1
      else p1
    tieredStep promo cart p2)

/-!  Reference formulations written from the specification's words, to be
compared against the definitions above (refinement checks). -/

/-- Reference formulation following the specification text for the BOGO
calculator: the sorted cart is treated as a per-unit expansion of the line
items — each quantity unit is a discrete candidate — and the unit at
flattened position `i * totalUnits + buy` of each completed group is
discounted by `unitPrice × discountOnGet/100`. -/
def bogoSpecPerUnitDiscount (config : BogoConfig) (cart : Cart) : ℚ :=
  let totalUnits := config.buy + config.get
  let groups := cart.totalItems / totalUnits
  if groups = 0 then 0
  else
    let units := (cart.items.map (fun item => List.replicate item.quantity item.unitPrice)).flatten
    let sortedUnits :=
      if config.applyOnCheapest then units.insertionSort (fun a b => a ≤ b)
      else units.insertionSort (fun a b => b ≤ a)
    (((List.range groups).filterMap (fun i => sortedUnits[i * totalUnits + config.buy]?)).map
      (fun price => price * (config.discountOnGet / 100))).sum

/-- Reference formulation following the specification text for the cumulative
tier cap: `maxDiscount ?? default` uses `maxDiscount` whenever it is
non-null, including when it equals `0`; the default (`100` for percentage
tiers, no cap otherwise) applies only when it is null. -/
def cumulativeSpecDiscount (perUnit : Nat) (tierType : String) (discount : ℚ)
    (maxDiscount : Option ℚ) (cart : Cart) : ℚ :=
  let groups := cart.totalItems / perUnit
  if tierType = "PERCENTAGE" then
    cart.subtotal * (min ((groups : ℚ) * discount) (maxDiscount.getD 100) / 100)
  else
    match maxDiscount with
    | some m => min ((groups : ℚ) * discount) m
    | none => (groups : ℚ) * discount

/-!  Concrete fixtures used by witnesses and counterexamples. -/

/-- Fixture: a product record. -/
def egProduct : Product := { name := "Hoody" }

/-- Fixture: a unit-quantity cart line. -/
def egItem (pid : String) (price : ℚ) : CartItem :=
  { productId := pid, size := "M", color := "green", unitPrice := price, product := egProduct }

/-- Fixture: a two-line cart totalling 100. -/
def egCart100 : Cart :=
  { items := [egItem "p1" 50, egItem "p2" 50], subtotal := 100, totalItems := 2 }

/-- Fixture: four identical-price unit-quantity lines. -/
def egCart4 : Cart :=
  { items := [egItem "p1" 10, egItem "p2" 10, egItem "p3" 10, egItem "p4" 10],
    subtotal := 40, totalItems := 4 }

/-- Fixture: a single line of quantity 4 (same totals as `egCart4`). -/
def egCartQ4 : Cart :=
  { items := [{ (egItem "p1" 10) with quantity := 4 }], subtotal := 40, totalItems := 4 }

/-- Fixture: buy-one-get-one-free configuration applied on the cheapest items. -/
def egBogo11 : BogoConfig :=
  { buy := 1, get := 1, discountOnGet := 100, applyOnCheapest := true }

/-- Fixture: the outcome of running the engine on `egCart100` with no promotions. -/
def egOutcomeNoPromos : PromoOutcome :=
  { totalDiscount := 0, appliedPromotions := [], giftProducts := [], finalTotal := 100 }

/-- Fixture: a single-line cart (too small for any BOGO group). -/
def egCartOne : Cart := { items := [egItem "p1" 10], subtotal := 10, totalItems := 1 }

/-- Fixture: a PRICE_FIXED promotion with value 30. -/
def egPromoPrice30 : Promotion :=
  { id := "pf30", name := "Pay 30", type := "PRICE_FIXED", discountValue := some 30 }

/-- Fixture: a cart with subtotal 50. -/
def egCart50 : Cart := { items := [egItem "p1" 25, egItem "p2" 25], subtotal := 50, totalItems := 2 }

/-- Fixture: a TIERED promotion whose `discountTiers` payload is missing. -/
def egPromoTieredNoTiers : Promotion := { id := "t1", name := "Tiered", type := "TIERED" }

/-- Fixture: a BOGO promotion whose `bogoConfig` payload is missing. -/
def egPromoBogoNoConfig : Promotion := { id := "b1", name := "Bogo", type := "BOGO" }

/-- Fixture: a promotion whose `conditions` JSON is `null`. -/
def egPromoCondNull : Promotion :=
  { id := "c1", name := "NullCond", type := "PERCENTAGE", discountValue := some 10,
    conditions := none }

/-- Fixture: a promotion with `maxUsesTotal = 0` and a large usage count. -/
def egPromoZeroMax : Promotion :=
  { id := "z1", name := "ZeroMax", type := "PERCENTAGE", discountValue := some 10,
    maxUsesTotal := some 0, usageCount := 999 }

/-- Fixture: a conditions object whose four numeric limits are all `0`. -/
def egCondZeroLimits : Conditions :=
  { minQuantity := some 0, maxQuantity := some 0, minCartValue := some 0,
    maxCartValue := some 0 }

/-- Fixture: an attributes object with only the spec-level `sameSize` key set. -/
def egAttrsSameSize : CondAttributes := { sameSize := true }

/-- Fixture: a promotion whose only condition is `attributes.sameSize`. -/
def egPromoSameSize : Promotion :=
  { id := "ss", name := "SameSize", type := "PERCENTAGE", discountValue := some 10,
    conditions := some { attributes := some egAttrsSameSize } }

/-- Fixture: a two-line cart whose lines have different sizes. -/
def egCartTwoSizes : Cart :=
  { items := [egItem "p1" 10, { (egItem "p2" 10) with size := "L" }],
    subtotal := 20, totalItems := 2 }

/-- Fixture: a five-line cart totalling 100. -/
def egCart5 : Cart :=
  { items := [egItem "p1" 20, egItem "p2" 20, egItem "p3" 20, egItem "p4" 20, egItem "p5" 20],
    subtotal := 100, totalItems := 5 }

/-- Fixture: a seven-line cart totalling 70. -/
def egCart7 : Cart :=
  { items := [egItem "p1" 10, egItem "p2" 10, egItem "p3" 10, egItem "p4" 10,
      egItem "p5" 10, egItem "p6" 10, egItem "p7" 10],
    subtotal := 70, totalItems := 7 }

/-- Fixture: a promotion whose only condition is `minQuantity = 3`. -/
def egPromoMinQ3 : Promotion :=
  { id := "q3", name := "MinQ3", type := "PERCENTAGE", discountValue := some 10,
    conditions := some { minQuantity := some 3 } }

/-- Fixture: a 10% promotion with no `combinesWith` whitelist (exclusive). -/
def egPromoTen : Promotion :=
  { id := "ten", name := "Ten", type := "PERCENTAGE", discountValue := some 10 }

/-- Fixture: the discount result of `egPromoTen` on `egCart100`. -/
def egResultTen : DiscountResult := { discount := 10, details := .percentage (some 10) }

/-- Fixture: the outcome of running `egPromoTen` alone on `egCart100`. -/
def egOutcomeTen : PromoOutcome :=
  { totalDiscount := 10, appliedPromotions := [mkApplied egPromoTen egResultTen],
    giftProducts := [], finalTotal := 90 }

/-- Fixture: a promotion that has exhausted its total usage limit. -/
def egPromoMaxed : Promotion :=
  { id := "mx", name := "Maxed", type := "PERCENTAGE", discountValue := some 10,
    maxUsesTotal := some 5, usageCount := 5 }

end MerchPromo

/-! # Theorems -/

namespace MerchPromo

/-- C1: for every cart and every promotion list, a completed run of
`calculatePromotions` satisfies `totalDiscount ≤ cart.subtotal` (the
aggregate is clamped after the selection loop) and
`finalTotal = cart.subtotal - totalDiscount`, hence `finalTotal ≥ 0`. -/
theorem calculatePromotions_clamped (cart : Cart) (userEmail : Option String)
    (userUsage : String → Nat) (promos : List Promotion) (out : PromoOutcome)
    (h : calculatePromotions cart userEmail userUsage promos = some out) :
    out.totalDiscount ≤ cart.subtotal ∧
    out.finalTotal = cart.subtotal - out.totalDiscount ∧
    0 ≤ out.finalTotal := by
  unfold calculatePromotions at h
  split at h
  · exact absurd h (by simp)
  · injection h with h
    subst h
    dsimp only
    split_ifs with hgt
    · exact ⟨le_refl _, rfl, by simp⟩
    · exact ⟨not_lt.mp hgt, rfl, by simpa [sub_nonneg] using not_lt.mp hgt⟩

/-- Witness for C1 at a concrete input: the empty promotion list on a
cart with subtotal 100. -/
theorem calculatePromotions_clamped_witness :
    egOutcomeNoPromos.totalDiscount ≤ egCart100.subtotal ∧
    egOutcomeNoPromos.finalTotal = egCart100.subtotal - egOutcomeNoPromos.totalDiscount ∧
    0 ≤ egOutcomeNoPromos.finalTotal :=
  calculatePromotions_clamped egCart100 none (fun _ => 0) [] egOutcomeNoPromos
    (by norm_num [calculatePromotions, selectLoop, egCart100, egOutcomeNoPromos])

/-- C9: the per-type dispatch table of `calculatePromoDiscount`:
PERCENTAGE gives `subtotal × discountValue/100`; FIXED gives
`min(discountValue, subtotal)`; PRICE_FIXED gives
`max(0, subtotal − discountValue)`; FREE_SHIPPING gives `cart.shippingCost`
(0 if unset); FREE_GIFT gives discount 0 with the promotion's `giftProduct`
attached; any unknown type gives discount 0 with empty details. -/
theorem calculatePromoDiscount_table (promo : Promotion) (cart : Cart) :
    (promo.type = "PERCENTAGE" → ∀ v, promo.discountValue = some v →
      calculatePromoDiscount promo cart =
        some { discount := cart.subtotal * (v / 100), details := .percentage (some v) }) ∧
    (promo.type = "FIXED" → ∀ v, promo.discountValue = some v →
      calculatePromoDiscount promo cart =
        some { discount := min v cart.subtotal, details := .fixed (some v) }) ∧
    (promo.type = "PRICE_FIXED" → ∀ v, promo.discountValue = some v →
      calculatePromoDiscount promo cart =
        some { discount := max 0 (cart.subtotal - v), details := .priceFixed (some v) }) ∧
    (promo.type = "FREE_SHIPPING" →
      calculatePromoDiscount promo cart =
        some { discount := cart.shippingCost.getD 0, details := .freeShipping }) ∧
    (promo.type = "FREE_GIFT" →
      calculatePromoDiscount promo cart =
        some { discount := 0, giftProduct := promo.giftProduct,
               details := .freeGift (promo.giftProduct.map Product.name) }) ∧
    (promo.type ∉ (["PERCENTAGE", "FIXED", "PRICE_FIXED", "TIERED", "BOGO",
        "FREE_SHIPPING", "FREE_GIFT"] : List String) →
      calculatePromoDiscount promo cart = some { discount := 0, details := .empty }) := by
  refine ⟨?_, ?_, ?_, ?_, ?_, ?_⟩
  · intro h v hv
    simp [calculatePromoDiscount, h, hv, jsNum]
  · intro h v hv
    simp [calculatePromoDiscount, h, hv, jsNum]
  · intro h v hv
    simp [calculatePromoDiscount, h, hv, jsNum]
  · intro h
    have : jsOrQ cart.shippingCost 0 = cart.shippingCost.getD 0 := by
      cases hs : cart.shippingCost with
      | none => simp [jsOrQ]
      | some s =>
        by_cases h0 : s = 0 <;> simp [jsOrQ, h0]
    simp [calculatePromoDiscount, h, this]
  · intro h
    simp [calculatePromoDiscount, h]
  · intro h
    simp only [List.mem_cons, List.not_mem_nil, or_false, not_or] at h
    obtain ⟨h1, h2, h3, h4, h5, h6, h7⟩ := h
    simp [calculatePromoDiscount, h1, h2, h3, h4, h5, h6, h7]

/-- Witness for C9: PRICE_FIXED with value 30 on subtotal 50 yields the
clamped difference, which evaluates to 20. -/
theorem calculatePromoDiscount_table_witness :
    calculatePromoDiscount egPromoPrice30 egCart50 =
      some { discount := max 0 (egCart50.subtotal - 30), details := .priceFixed (some 30) } ∧
    max 0 (egCart50.subtotal - 30) = 20 :=
  ⟨(calculatePromoDiscount_table egPromoPrice30 egCart50).2.2.1 rfl 30 rfl,
   by norm_num [egCart50]⟩

/-- C3 counterexample: the engine is not total on well-typed input.  A
TIERED promotion with a missing `discountTiers`, a BOGO promotion with a
missing `bogoConfig`, and a promotion whose `conditions` JSON is `null` all
throw a `TypeError` (modelled as `none`) instead of degrading to a zero
discount or universal eligibility. -/
theorem engine_totality_cex :
    calculatePromoDiscount egPromoTieredNoTiers egCart100 = none ∧
    calculatePromoDiscount egPromoTieredNoTiers egCart100 ≠
      some { discount := 0, details := .empty } ∧
    calculatePromoDiscount egPromoBogoNoConfig egCart100 = none ∧
    checkConditions egPromoCondNull egCart100 = none ∧
    calculateProgress egCart100 egPromoCondNull = none := by
  refine ⟨?_, ?_, ?_, ?_, ?_⟩ <;>
    simp [calculatePromoDiscount, checkConditions, calculateProgress,
      egPromoTieredNoTiers, egPromoBogoNoConfig, egPromoCondNull]

/-- C3 (amended): a promotion with an unknown type yields discount 0 with
empty details, and an empty `conditions` object is universally eligible; but
a TIERED promotion with missing `discountTiers`, or a BOGO promotion with
missing `bogoConfig`, throws a `TypeError` (`none`) instead of yielding
discount 0, and a `null` `conditions` object makes `checkConditions` throw
instead of counting as universally eligible. -/
theorem engine_partial_totality (promo : Promotion) (cart : Cart) :
    (promo.conditions = some {} → checkConditions promo cart = some true) ∧
    (promo.conditions = none → checkConditions promo cart = none) ∧
    (promo.type = "TIERED" → promo.discountTiers = none →
      calculatePromoDiscount promo cart = none) ∧
    (promo.type = "BOGO" → promo.bogoConfig = none →
      calculatePromoDiscount promo cart = none) ∧
    (promo.type ∉ (["PERCENTAGE", "FIXED", "PRICE_FIXED", "TIERED", "BOGO",
        "FREE_SHIPPING", "FREE_GIFT"] : List String) →
      calculatePromoDiscount promo cart = some { discount := 0, details := .empty }) := by
  refine ⟨?_, ?_, ?_, ?_, ?_⟩
  · intro h
    simp [checkConditions, h, condMatches, natTruthy, qTruthy]
  · intro h
    simp [checkConditions, h]
  · intro h ht
    simp [calculatePromoDiscount, h, ht]
  · intro h hb
    simp [calculatePromoDiscount, h, hb]
  · intro h
    simp only [List.mem_cons, List.not_mem_nil, or_false, not_or] at h
    obtain ⟨h1, h2, h3, h4, h5, h6, h7⟩ := h
    simp [calculatePromoDiscount, h1, h2, h3, h4, h5, h6, h7]

/-- Witness for C3 (amended): an empty conditions object is universally
eligible, and the unknown type "MYSTERY" yields a zero discount. -/
theorem engine_partial_totality_witness :
    checkConditions egPromoTieredNoTiers egCart100 = some true ∧
    calculatePromoDiscount { id := "u", name := "u", type := "MYSTERY" } egCart100 =
      some { discount := 0, details := .empty } :=
  ⟨(engine_partial_totality egPromoTieredNoTiers egCart100).1 rfl,
   (engine_partial_totality { id := "u", name := "u", type := "MYSTERY" } egCart100).2.2.2.2
     (by simp)⟩

/-- C10: zero-valued limit fields behave as if absent: `maxUsesTotal = 0`
never triggers the total-usage rejection whatever the usage count, and a
conditions object with `minQuantity`, `maxQuantity`, `minCartValue` or
`maxCartValue` equal to `0` imposes no corresponding constraint (the field
is skipped by the evaluator). -/
theorem zero_limits_skipped :
    (∀ promo : Promotion, promo.maxUsesTotal = some 0 → usageLimitReject promo = false) ∧
    (∀ (cart : Cart) (cond : Conditions), cond.minQuantity = some 0 →
      condMatches cond cart = condMatches { cond with minQuantity := none } cart) ∧
    (∀ (cart : Cart) (cond : Conditions), cond.maxQuantity = some 0 →
      condMatches cond cart = condMatches { cond with maxQuantity := none } cart) ∧
    (∀ (cart : Cart) (cond : Conditions), cond.minCartValue = some 0 →
      condMatches cond cart = condMatches { cond with minCartValue := none } cart) ∧
    (∀ (cart : Cart) (cond : Conditions), cond.maxCartValue = some 0 →
      condMatches cond cart = condMatches { cond with maxCartValue := none } cart) := by
  refine ⟨?_, ?_, ?_, ?_, ?_⟩
  · intro promo h
    simp [usageLimitReject, h, natTruthy]
  · intro cart cond h
    simp [condMatches, h, natTruthy]
  · intro cart cond h
    simp [condMatches, h, natTruthy]
  · intro cart cond h
    simp [condMatches, h, qTruthy]
  · intro cart cond h
    simp [condMatches, h, qTruthy]

/-- Witness for C10: a promotion with `maxUsesTotal = 0` and usage count 999
is not rejected, and all-zero numeric conditions constrain nothing. -/
theorem zero_limits_skipped_witness :
    usageLimitReject egPromoZeroMax = false ∧
    condMatches egCondZeroLimits egCart100 =
      condMatches { egCondZeroLimits with minQuantity := none } egCart100 ∧
    condMatches egCondZeroLimits egCart100 = true :=
  ⟨zero_limits_skipped.1 egPromoZeroMax rfl,
   zero_limits_skipped.2.1 egCart100 egCondZeroLimits rfl,
   by simp [condMatches, egCondZeroLimits, natTruthy, qTruthy]⟩

/-- C7 counterexample: the spec-level key `attributes.sameSize` is never read
by the evaluator (the implementation key is `sameTaglia`): a cart whose two
lines have distinct sizes still passes a `sameSize` condition. -/
theorem sameSize_ignored_cex :
    checkConditions egPromoSameSize egCartTwoSizes = some true ∧
    (egCartTwoSizes.items.map (fun i => i.size)).dedup.length > 1 := by
  constructor
  · simp [checkConditions, egPromoSameSize, condMatches, natTruthy, qTruthy,
      egAttrsSameSize, egCartTwoSizes, egItem]
  · simp [egCartTwoSizes, egItem, List.dedup_cons_of_not_mem]

/-- C7 (amended): the size / color / product uniformity constraints are
controlled by `attributes.sameTaglia`, `sameColor` and `sameProduct` (the
spec's `sameSize` key is ignored); with only an attributes condition present,
the evaluator accepts exactly when every requested dimension has at most one
distinct value over the cart lines (an empty cart satisfies all three). -/
theorem attribute_constraints (cart : Cart) (attrs : CondAttributes) :
    (condMatches { attributes := some attrs } cart = true ↔
      ((attrs.sameTaglia = true → (cart.items.map (fun i => i.size)).dedup.length ≤ 1) ∧
       (attrs.sameColor = true → (cart.items.map (fun i => i.color)).dedup.length ≤ 1) ∧
       (attrs.sameProduct = true →
         (cart.items.map (fun i => i.productId)).dedup.length ≤ 1))) ∧
    (∀ b, condMatches { attributes := some { attrs with sameSize := b } } cart =
      condMatches { attributes := some attrs } cart) ∧
    (cart.items = [] → condMatches { attributes := some attrs } cart = true) := by
  refine ⟨?_, ?_, ?_⟩
  · cases hT : attrs.sameTaglia <;> cases hC : attrs.sameColor <;>
      cases hP : attrs.sameProduct <;>
      simp [condMatches, natTruthy, qTruthy, hT, hC, hP, and_assoc]
  · intro b
    cases hT : attrs.sameTaglia <;> cases hC : attrs.sameColor <;>
      cases hP : attrs.sameProduct <;>
      simp [condMatches, natTruthy, qTruthy, hT, hC, hP]
  · intro h
    simp [condMatches, natTruthy, qTruthy, h]

/-- C5 counterexample: the cumulative cap uses JavaScript `||`, not `??`: a
`maxDiscount` equal to `0` is falsy, so the default of 100 applies instead of
a zero cap.  With `perUnit = 1`, percentage tier discount 10 and
`maxDiscount = 0` on a 5-item cart of subtotal 100, the code yields 50 while
the claim's `??` reading yields 0. -/
theorem maxDiscount_zero_cex :
    (calculateTieredDiscount (.cumulative 1 "PERCENTAGE" 10 (some 0)) egCart5).discount = 50 ∧
    cumulativeSpecDiscount 1 "PERCENTAGE" 10 (some 0) egCart5 = 0 ∧
    (50 : ℚ) ≠ 0 := by
  refine ⟨?_, ?_, by norm_num⟩ <;>
    norm_num [calculateTieredDiscount, cumulativeSpecDiscount, jsOrQ, egCart5]

/-- C5 (amended): cumulative mode uses `groups = ⌊totalItems/perUnit⌋`; a
PERCENTAGE tier gives `subtotal × min(groups×discount, cap)/100` and a fixed
tier gives `min(groups×discount, cap)` — where the cap is `maxDiscount` when
it is truthy (non-null and nonzero) and the default (100, resp. no cap)
when `maxDiscount` is null **or zero**.  Progressive mode selects a tier
with the highest threshold `≤ totalItems` (discount 0 when none is met),
giving `subtotal × tier.discount/100` for a PERCENTAGE tier and the flat
`tier.discount` otherwise. -/
theorem calculateTieredDiscount_spec (cart : Cart) :
    (∀ perUnit d m, m ≠ 0 →
      (calculateTieredDiscount (.cumulative perUnit "PERCENTAGE" d (some m)) cart).discount =
        cart.subtotal * (min (((cart.totalItems / perUnit : Nat) : ℚ) * d) m / 100)) ∧
    (∀ perUnit d md, md = none ∨ md = some 0 →
      (calculateTieredDiscount (.cumulative perUnit "PERCENTAGE" d md) cart).discount =
        cart.subtotal * (min (((cart.totalItems / perUnit : Nat) : ℚ) * d) 100 / 100)) ∧
    (∀ perUnit ty d m, ty ≠ "PERCENTAGE" → m ≠ 0 →
      (calculateTieredDiscount (.cumulative perUnit ty d (some m)) cart).discount =
        min (((cart.totalItems / perUnit : Nat) : ℚ) * d) m) ∧
    (∀ perUnit ty d md, ty ≠ "PERCENTAGE" → md = none ∨ md = some 0 →
      (calculateTieredDiscount (.cumulative perUnit ty d md) cart).discount =
        ((cart.totalItems / perUnit : Nat) : ℚ) * d) ∧
    (∀ tlist, (∀ t ∈ tlist, cart.totalItems < t.threshold) →
      (calculateTieredDiscount (.progressive tlist) cart).discount = 0) ∧
    (∀ tlist t0, t0 ∈ tlist → t0.threshold ≤ cart.totalItems →
      ∃ t ∈ tlist, t.threshold ≤ cart.totalItems ∧
        (∀ u ∈ tlist, u.threshold ≤ cart.totalItems → u.threshold ≤ t.threshold) ∧
        (calculateTieredDiscount (.progressive tlist) cart).discount =
          (if t.type = "PERCENTAGE" then cart.subtotal * (t.discount / 100) else t.discount)) := by
  haveI instTot : IsTotal Tier (fun a b => b.threshold ≤ a.threshold) :=
    ⟨fun a b => le_total b.threshold a.threshold⟩
  haveI instTrans : IsTrans Tier (fun a b => b.threshold ≤ a.threshold) :=
    ⟨fun _ _ _ hab hbc => le_trans hbc hab⟩
  refine ⟨?_, ?_, ?_, ?_, ?_, ?_⟩
  · intro perUnit d m hm
    simp [calculateTieredDiscount, jsOrQ, hm]
  · rintro perUnit d md (rfl | rfl) <;> simp [calculateTieredDiscount, jsOrQ]
  · intro perUnit ty d m hty hm
    simp [calculateTieredDiscount, jsOrQ, qTruthy, jsNum, hty, hm]
  · rintro perUnit ty d md hty (rfl | rfl) <;>
      simp [calculateTieredDiscount, jsOrQ, qTruthy, jsNum, hty]
  · intro tlist hlt
    have hnone :
        (tlist.insertionSort (fun a b => b.threshold ≤ a.threshold)).find?
          (fun t => cart.totalItems ≥ t.threshold) = none := by
      rw [List.find?_eq_none]
      intro t ht
      have : t ∈ tlist := (List.perm_insertionSort _ tlist).mem_iff.mp ht
      simpa using Nat.not_le.mpr (hlt t this)
    simp [calculateTieredDiscount, hnone]
  · intro tlist t0 ht0 hle
    set s := tlist.insertionSort (fun a b => b.threshold ≤ a.threshold) with hs
    have hperm : s.Perm tlist := List.perm_insertionSort _ tlist
    cases hf : s.find? (fun t => cart.totalItems ≥ t.threshold) with
    | none =>
      rw [List.find?_eq_none] at hf
      exact absurd (by simpa using hle) (hf t0 (hperm.mem_iff.mpr ht0))
    | some t =>
      obtain ⟨hpt, as, bs, hsplit, hfail⟩ := List.find?_eq_some.mp hf
      have htmem : t ∈ tlist := hperm.mem_iff.mp (List.mem_of_find?_eq_some hf)
      have hsorted : s.Pairwise (fun a b => b.threshold ≤ a.threshold) := by
        have := List.sorted_insertionSort (fun a b : Tier => b.threshold ≤ a.threshold) tlist
        rw [← hs] at this
        exact this
      refine ⟨t, htmem, by simpa using hpt, ?_, ?_⟩
      · intro u hu hule
        have humem : u ∈ s := hperm.mem_iff.mpr hu
        rw [hsplit] at humem hsorted
        rcases List.mem_append.mp humem with hua | hub
        · exact absurd (by simpa using hule) (by simpa using hfail u hua)
        · rcases List.mem_cons.mp hub with rfl | hub2
          · exact le_refl _
          · exact (List.pairwise_cons.mp (List.pairwise_append.mp hsorted).2.1).1 u hub2
      · simp [calculateTieredDiscount, ← hs, hf]

/-- Witness for C5 (amended): cumulative fixed tiers, `perUnit = 2`,
per-group discount 5, no cap, 7 items: 3 groups, discount 15. -/
theorem calculateTieredDiscount_spec_witness :
    (calculateTieredDiscount (.cumulative 2 "FIXED" 5 none) egCart7).discount = 15 := by
  have h := (calculateTieredDiscount_spec egCart7).2.2.2.1 2 "FIXED" 5 none
    (by decide) (Or.inl rfl)
  rw [h]
  norm_num [egCart7]

/-- C8: the Progress Estimator's dimensions overwrite one shared result in
the fixed order quantity, then cart value, then the tiered type-check: when
a truthy `minCartValue` is present its percentage and remaining figures
stand regardless of `minQuantity` (for a non-TIERED promotion, where the
tier dimension does not run); when only a truthy `minQuantity` is present, a
below-target cart reports `percentage = current/target×100`,
`remaining = target − current`, `nextThreshold = target`, and an at-target
cart reports 100 / 0; and for a TIERED promotion with a tier list and a
not-yet-reached tier, the tiered dimension's figures stand regardless of the
`minQuantity` / `minCartValue` fields. -/
theorem calculateProgress_spec (cart : Cart) (promo : Promotion) (cond : Conditions)
    (hc : promo.conditions = some cond) :
    (∀ q, promo.type ≠ "TIERED" → cond.minQuantity = some q → q ≠ 0 →
      qTruthy cond.minCartValue = false →
      ∃ p, calculateProgress cart promo = some p ∧
        (cart.totalItems < q →
          p.percentage = (cart.totalItems : ℚ) / (q : ℚ) * 100 ∧
          p.remaining = (q : ℚ) - (cart.totalItems : ℚ) ∧
          p.nextThreshold = some (q : ℚ)) ∧
        (q ≤ cart.totalItems → p.percentage = 100 ∧ p.remaining = 0)) ∧
    (∀ v, promo.type ≠ "TIERED" → cond.minCartValue = some v → v ≠ 0 →
      ∃ p, calculateProgress cart promo = some p ∧
        (cart.subtotal < v →
          p.percentage = cart.subtotal / v * 100 ∧
          p.remaining = v - cart.subtotal ∧
          p.nextThreshold = some v) ∧
        (v ≤ cart.subtotal → p.percentage = 100 ∧ p.remaining = 0)) ∧
    (∀ tlist t0, promo.type = "TIERED" →
      promo.discountTiers = some (.progressive tlist) →
      t0 ∈ tlist → cart.totalItems < t0.threshold →
      ∃ m, (∃ t ∈ tlist, t.threshold = m ∧ cart.totalItems < m) ∧
        (∀ u ∈ tlist, cart.totalItems < u.threshold → m ≤ u.threshold) ∧
        ∃ p, calculateProgress cart promo = some p ∧
          p.remaining = (m : ℚ) - (cart.totalItems : ℚ) ∧
          p.nextThreshold = some (m : ℚ)) := by
  refine ⟨?_, ?_, ?_⟩
  case refine_3 =>
    intro tlist t0 htype htiers ht0 hlt0
    haveI : IsTotal Tier (fun a b => a.threshold ≤ b.threshold) :=
      ⟨fun a b => le_total a.threshold b.threshold⟩
    haveI : IsTrans Tier (fun a b => a.threshold ≤ b.threshold) :=
      ⟨fun _ _ _ hab hbc => le_trans hab hbc⟩
    set s := tlist.insertionSort (fun a b => a.threshold ≤ b.threshold) with hsdef
    have hperm : s.Perm tlist := List.perm_insertionSort _ tlist
    cases hf : s.find? (fun t => cart.totalItems < t.threshold) with
    | none =>
      rw [List.find?_eq_none] at hf
      exact absurd (by simpa using hlt0) (hf t0 (hperm.mem_iff.mpr ht0))
    | some nextTier =>
      obtain ⟨hpt, as, bs, hsplit, hfail⟩ := List.find?_eq_some.mp hf
      have hmem : nextTier ∈ tlist := hperm.mem_iff.mp (List.mem_of_find?_eq_some hf)
      have hsorted : s.Pairwise (fun a b => a.threshold ≤ b.threshold) := by
        have hsi := List.sorted_insertionSort (fun a b : Tier => a.threshold ≤ b.threshold) tlist
        rw [← hsdef] at hsi
        exact hsi
      refine ⟨nextTier.threshold, ⟨nextTier, hmem, rfl, by simpa using hpt⟩, ?_, ?_⟩
      · intro u hu hul
        have humem : u ∈ s := hperm.mem_iff.mpr hu
        rw [hsplit] at humem hsorted
        rcases List.mem_append.mp humem with hua | hub
        · exact absurd (by simpa using hul) (by simpa using hfail u hua)
        · rcases List.mem_cons.mp hub with rfl | hub2
          · exact le_refl _
          · exact (List.pairwise_cons.mp (List.pairwise_append.mp hsorted).2.1).1 u hub2
      · have hrun : calculateProgress cart promo =
            some (tieredStep promo cart
              (if qTruthy cond.minCartValue then
                qtyValueStep cart.subtotal (cond.minCartValue.getD 0)
                  (if natTruthy cond.minQuantity then
                    qtyValueStep (cart.totalItems : ℚ) ((cond.minQuantity.getD 0 : Nat) : ℚ)
                      { percentage := 0, remaining := 0, nextThreshold := none }
                  else { percentage := 0, remaining := 0, nextThreshold := none })
              else
                if natTruthy cond.minQuantity then
                  qtyValueStep (cart.totalItems : ℚ) ((cond.minQuantity.getD 0 : Nat) : ℚ)
                    { percentage := 0, remaining := 0, nextThreshold := none }
                else { percentage := 0, remaining := 0, nextThreshold := none })) := by
          rw [calculateProgress, hc]
          rfl
        refine ⟨_, hrun, ?_, ?_⟩ <;> simp [tieredStep, htype, htiers, ← hsdef, hf]
  case refine_1 =>
    intro q htype hq hq0 hval
    have hts : ∀ p : Progress, tieredStep promo cart p = p := by
      intro p
      simp [tieredStep, htype]
    have hrun : calculateProgress cart promo =
        some (qtyValueStep (cart.totalItems : ℚ) ((q : Nat) : ℚ)
          { percentage := 0, remaining := 0, nextThreshold := none }) := by
      simp [calculateProgress, hc, hq, hval, natTruthy, hq0, hts]
    refine ⟨_, hrun, ?_, ?_⟩
    · intro hlt
      have hcast : (cart.totalItems : ℚ) < ((q : Nat) : ℚ) := by exact_mod_cast hlt
      simp [qtyValueStep, hcast]
    · intro hge
      have hcast : ¬ ((cart.totalItems : ℚ) < ((q : Nat) : ℚ)) :=
        not_lt.mpr (by exact_mod_cast hge)
      simp [qtyValueStep, hcast]
  case refine_2 =>
    intro v htype hv hv0
    have hts : ∀ p : Progress, tieredStep promo cart p = p := by
      intro p
      simp [tieredStep, htype]
    cases hnq : natTruthy cond.minQuantity with
    | false =>
      have hrun : calculateProgress cart promo =
          some (qtyValueStep cart.subtotal v
            { percentage := 0, remaining := 0, nextThreshold := none }) := by
        simp [calculateProgress, hc, hv, qTruthy, hv0, hnq, hts]
      refine ⟨_, hrun, ?_, ?_⟩
      · intro hlt
        simp [qtyValueStep, hlt]
      · intro hge
        simp [qtyValueStep, not_lt.mpr hge]
    | true =>
      have hrun : calculateProgress cart promo =
          some (qtyValueStep cart.subtotal v
            (qtyValueStep (cart.totalItems : ℚ) ((cond.minQuantity.getD 0 : Nat) : ℚ)
              { percentage := 0, remaining := 0, nextThreshold := none })) := by
        simp [calculateProgress, hc, hv, qTruthy, hv0, hnq, hts]
      refine ⟨_, hrun, ?_, ?_⟩
      · intro hlt
        simp [qtyValueStep, hlt]
      · intro hge
        simp [qtyValueStep, not_lt.mpr hge]

/-- Witness for C8: `minQuantity = 3` on a cart with `totalItems = 2`
reports percentage 200/3 (≈ 66.7) and remaining 1. -/
theorem calculateProgress_spec_witness :
    calculateProgress egCartTwoSizes egPromoMinQ3 =
      some { percentage := 200 / 3, remaining := 1, nextThreshold := some 3 } := by
  obtain ⟨p, hp, hlt, hge⟩ :=
    (calculateProgress_spec egCartTwoSizes egPromoMinQ3 { minQuantity := some 3 }
      rfl).1 3 (by decide) rfl (by decide) (by simp [qTruthy])
  have hpval : p = { percentage := 200 / 3, remaining := 1, nextThreshold := some 3 } := by
    obtain ⟨h1, h2, h3⟩ := hlt (by norm_num [egCartTwoSizes])
    cases p with
    | mk pc pr pn =>
      simp only at h1 h2 h3
      norm_num [egCartTwoSizes] at h1 h2 h3
      simp [h1, h2, h3]
  rw [hp, hpval]

/-- Witness for C7 (amended): on the two-size cart, a `sameTaglia` condition
fails while the same condition restricted to `sameColor` passes. -/
theorem attribute_constraints_witness :
    (condMatches { attributes := some { sameTaglia := true } } egCartTwoSizes = true ↔
      ((true = true → (egCartTwoSizes.items.map (fun i => i.size)).dedup.length ≤ 1) ∧
       (false = true → (egCartTwoSizes.items.map (fun i => i.color)).dedup.length ≤ 1) ∧
       (false = true →
         (egCartTwoSizes.items.map (fun i => i.productId)).dedup.length ≤ 1))) ∧
    condMatches { attributes := some { sameTaglia := true } } egCartTwoSizes = false :=
  ⟨(attribute_constraints egCartTwoSizes { sameTaglia := true }).1,
   by simp [condMatches, natTruthy, qTruthy, egCartTwoSizes, egItem,
     List.dedup_cons_of_not_mem]⟩

/-- C4 counterexample: the BOGO calculator indexes sorted **line records**,
not a per-unit expansion.  On a cart holding one line of quantity 4
(`totalItems = 4`), buy-1-get-1 at 100% finds `groups = 2` but both target
positions 1 and 3 fall outside the single-element line list, so the code
discounts nothing, while the claim's per-unit reading discounts two units
(2 × 10 = 20). -/
theorem bogo_per_unit_cex :
    (calculateBOGODiscount egBogo11 egCartQ4).discount = 0 ∧
    bogoSpecPerUnitDiscount egBogo11 egCartQ4 = 20 ∧
    (0 : ℚ) ≠ 20 := by
  refine ⟨?_, ?_, by norm_num⟩
  · norm_num [calculateBOGODiscount, bogoSortedItems, egBogo11, egCartQ4, egItem, egProduct,
      List.insertionSort, List.orderedInsert, List.range_succ, List.filterMap_cons,
      List.getElem?_cons_zero, List.getElem?_cons_succ]
  · norm_num [bogoSpecPerUnitDiscount, egBogo11, egCartQ4, egItem, egProduct,
      List.insertionSort, List.orderedInsert, List.range_succ, List.filterMap_cons,
      List.getElem?_cons_zero, List.getElem?_cons_succ, List.replicate]

/-- C4 (amended): with `totalUnits = buy + get` and
`groups = ⌊totalItems/totalUnits⌋`, `groups = 0` gives discount 0; otherwise
the **line records** of the cart (each line one candidate, regardless of its
quantity) are stably sorted by unit price — ascending when `applyOnCheapest`,
descending otherwise — and for each group `i` the line at position
`i*totalUnits + buy` of that sorted sequence contributes
`unitPrice × discountOnGet/100` (positions past the end contribute nothing).
On a cart of 4 identical-price unit-quantity lines this yields `groups = 2`
and discount `2 × unitPrice`. -/
theorem calculateBOGODiscount_spec (config : BogoConfig) (cart : Cart) :
    (cart.totalItems / (config.buy + config.get) = 0 →
      (calculateBOGODiscount config cart).discount = 0) ∧
    ∃ sorted : List CartItem,
      sorted.Perm cart.items ∧
      (config.applyOnCheapest = true →
        sorted.Pairwise (fun a b => a.unitPrice ≤ b.unitPrice)) ∧
      (config.applyOnCheapest = false →
        sorted.Pairwise (fun a b => b.unitPrice ≤ a.unitPrice)) ∧
      (calculateBOGODiscount config cart).discount =
        (((List.range (cart.totalItems / (config.buy + config.get))).filterMap
            (fun i => sorted[i * (config.buy + config.get) + config.buy]?)).map
          (fun item => item.unitPrice * (config.discountOnGet / 100))).sum := by
  haveI : IsTotal CartItem (fun a b => a.unitPrice ≤ b.unitPrice) :=
    ⟨fun a b => le_total a.unitPrice b.unitPrice⟩
  haveI : IsTrans CartItem (fun a b => a.unitPrice ≤ b.unitPrice) :=
    ⟨fun _ _ _ hab hbc => le_trans hab hbc⟩
  haveI : IsTotal CartItem (fun a b => b.unitPrice ≤ a.unitPrice) :=
    ⟨fun a b => le_total b.unitPrice a.unitPrice⟩
  haveI : IsTrans CartItem (fun a b => b.unitPrice ≤ a.unitPrice) :=
    ⟨fun _ _ _ hab hbc => le_trans hbc hab⟩
  refine ⟨fun h => by simp [calculateBOGODiscount, h], bogoSortedItems config cart, ?_, ?_, ?_, ?_⟩
  · unfold bogoSortedItems
    split
    · exact List.perm_insertionSort _ _
    · exact List.perm_insertionSort _ _
  · intro h
    simp only [bogoSortedItems, h, if_true]
    exact List.sorted_insertionSort _ _
  · intro h
    simp only [bogoSortedItems, h, Bool.false_eq_true, if_false]
    exact List.sorted_insertionSort _ _
  · by_cases h : cart.totalItems / (config.buy + config.get) = 0
    · simp [calculateBOGODiscount, h]
    · simp [calculateBOGODiscount, h]

/-- Soundness of the selection loop: a completed run appends, to the incoming
state's list, one summary record per accepted promotion; the accepted
promotions form an in-order subsequence of the input list, every accepted
promotion passed both usage checks and the condition check and produced a
positive discount or a gift, and every accepted promotion except possibly the
last is combinable (the loop breaks at the first non-combinable one). -/
theorem selectLoop_sound (cart : Cart) (userEmail : Option String)
    (userUsage : String → Nat) (promos : List Promotion) :
    ∀ st st', selectLoop cart userEmail userUsage promos st = some st' →
      ∃ ps : List (Promotion × DiscountResult),
        st'.appliedPromotions =
          st.appliedPromotions ++ ps.map (fun pr => mkApplied pr.1 pr.2) ∧
        (ps.map Prod.fst).Sublist promos ∧
        (∀ pr ∈ ps.dropLast, canCombine pr.1 = true) ∧
        (∀ pr ∈ ps, usageLimitReject pr.1 = false ∧
          userLimitReject pr.1 userEmail userUsage = false ∧
          checkConditions pr.1 cart = some true ∧
          calculatePromoDiscount pr.1 cart = some pr.2 ∧
          (0 < pr.2.discount ∨ pr.2.giftProduct.isSome = true)) := by
  induction promos with
  | nil =>
    intro st st' h
    unfold selectLoop at h
    injection h with h
    subst h
    exact ⟨[], by simp, by simp, by simp, by simp⟩
  | cons promo rest ih =>
    intro st st' h
    have hskip : selectLoop cart userEmail userUsage rest st = some st' →
        ∃ ps : List (Promotion × DiscountResult),
          st'.appliedPromotions =
            st.appliedPromotions ++ ps.map (fun pr => mkApplied pr.1 pr.2) ∧
          (ps.map Prod.fst).Sublist (promo :: rest) ∧
          (∀ pr ∈ ps.dropLast, canCombine pr.1 = true) ∧
          (∀ pr ∈ ps, usageLimitReject pr.1 = false ∧
            userLimitReject pr.1 userEmail userUsage = false ∧
            checkConditions pr.1 cart = some true ∧
            calculatePromoDiscount pr.1 cart = some pr.2 ∧
            (0 < pr.2.discount ∨ pr.2.giftProduct.isSome = true)) := by
      intro hh
      obtain ⟨ps, ha, hs, hd, hg⟩ := ih st st' hh
      exact ⟨ps, ha, hs.cons promo, hd, hg⟩
    unfold selectLoop at h
    split at h
    · exact hskip h
    next h1 =>
      split at h
      · exact hskip h
      next h2 =>
        split at h
        · exact hskip h
        next h3 =>
          split at h
          next hcc => exact absurd h (by simp)
          next hcc => exact hskip h
          next hcc =>
            split at h
            next hcd => exact absurd h (by simp)
            next result hcd =>
              split at h
              next hacc =>
                split at h
                next hcomb =>
                  obtain ⟨ps, ha, hs, hd, hg⟩ := ih _ _ h
                  refine ⟨(promo, result) :: ps, ?_, ?_, ?_, ?_⟩
                  · rw [ha]
                    simp [applyPromo]
                  · simpa using hs.cons₂ promo
                  · intro pr hpr
                    rcases ps with _ | ⟨y, ys⟩
                    · simp at hpr
                    · rcases List.mem_cons.mp (by simpa [List.dropLast] using hpr) with
                        hfst | h6
                      · rw [hfst]
                        exact hcomb
                      · exact hd pr h6
                  · intro pr hpr
                    rcases List.mem_cons.mp hpr with hfst | h6
                    · rw [hfst]
                      refine ⟨by simpa using h2, by simpa using h3, hcc, hcd, ?_⟩
                      simpa [decide_eq_true_eq] using hacc
                    · exact hg pr h6
                next hcomb =>
                  injection h with h
                  subst h
                  refine ⟨[(promo, result)], by simp [applyPromo], ?_, by simp, ?_⟩
                  · simp only [List.map_cons, List.map_nil]
                    exact (List.nil_sublist rest).cons₂ promo
                  · intro pr hpr
                    rcases List.mem_cons.mp hpr with hfst | h6
                    · rw [hfst]
                      refine ⟨by simpa using h2, by simpa using h3, hcc, hcd, ?_⟩
                      simpa [decide_eq_true_eq] using hacc
                    · simp at h6
              next hacc => exact hskip h

/-- With no customer identifier, the per-user usage lookup is never
consulted: the loop's result does not depend on it. -/
theorem selectLoop_usage_irrelevant (cart : Cart) (u1 u2 : String → Nat)
    (promos : List Promotion) : ∀ st,
    selectLoop cart none u1 promos st = selectLoop cart none u2 promos st := by
  induction promos with
  | nil => intro st; rfl
  | cons promo rest ih =>
    intro st
    have hu : ∀ u : String → Nat, userLimitReject promo none u = false := by
      intro u
      simp [userLimitReject, strTruthy]
    simp only [selectLoop, hu, ih]

/-- C2: the applied set of a completed run contains at most one promotion
whose `combinesWith` list is empty or absent; all applied promotions except
possibly the last are combinable (acceptance of a non-combinable promotion
breaks the loop), and — on a priority-descending input list — every other
applied promotion has priority at least that of the non-combinable one, so
no promotion of lower priority is also accepted. -/
theorem calculatePromotions_exclusive (cart : Cart) (userEmail : Option String)
    (userUsage : String → Nat) (promos : List Promotion) (out : PromoOutcome)
    (h : calculatePromotions cart userEmail userUsage promos = some out)
    (hsorted : promos.Pairwise (fun a b => b.priority ≤ a.priority)) :
    ∃ ps : List (Promotion × DiscountResult),
      out.appliedPromotions = ps.map (fun pr => mkApplied pr.1 pr.2) ∧
      (ps.map Prod.fst).Sublist promos ∧
      (∀ pr ∈ ps.dropLast, canCombine pr.1 = true) ∧
      ps.countP (fun pr => !canCombine pr.1) ≤ 1 ∧
      (∀ pr, ps.getLast? = some pr → canCombine pr.1 = false →
        ∀ qr ∈ ps.dropLast, pr.1.priority ≤ qr.1.priority) := by
  unfold calculatePromotions at h
  split at h
  · exact absurd h (by simp)
  next st hsel =>
    injection h with h
    subst h
    obtain ⟨ps, ha, hs, hd, _⟩ := selectLoop_sound cart userEmail userUsage promos _ _ hsel
    refine ⟨ps, by simpa using ha, hs, hd, ?_, ?_⟩
    · by_cases hne : ps = []
      · simp [hne]
      · have hdecomp := List.dropLast_concat_getLast hne
        have hzero : ps.dropLast.countP (fun pr => !canCombine pr.1) = 0 :=
          List.countP_eq_zero.mpr (fun a haMem => by simp [hd a haMem])
        rw [← hdecomp, List.countP_append, hzero]
        simp only [List.countP_cons, List.countP_nil, Nat.zero_add]
        split <;> simp
    · intro pr hlast hnc qr hqr
      have hpair : ps.Pairwise
          (fun x y : Promotion × DiscountResult => y.1.priority ≤ x.1.priority) :=
        List.pairwise_map.mp (hsorted.sublist hs)
      have hne : ps ≠ [] := by
        rintro rfl
        simp at hlast
      have hlastval : ps.getLast hne = pr := by
        have hgl := List.getLast?_eq_getLast ps hne
        rw [hlast] at hgl
        exact (Option.some_inj.mp hgl).symm
      have hdecomp := List.dropLast_concat_getLast hne
      rw [← hdecomp] at hpair
      exact (List.pairwise_append.mp hpair).2.2 qr hqr pr (by simp [hlastval])

/-- Witness for C2: one exclusive 10% promotion on a cart of subtotal 100
is accepted and the loop stops. -/
theorem calculatePromotions_exclusive_witness :
    ∃ ps : List (Promotion × DiscountResult),
      egOutcomeTen.appliedPromotions = ps.map (fun pr => mkApplied pr.1 pr.2) ∧
      (ps.map Prod.fst).Sublist [egPromoTen] ∧
      (∀ pr ∈ ps.dropLast, canCombine pr.1 = true) ∧
      ps.countP (fun pr => !canCombine pr.1) ≤ 1 ∧
      (∀ pr, ps.getLast? = some pr → canCombine pr.1 = false →
        ∀ qr ∈ ps.dropLast, pr.1.priority ≤ qr.1.priority) :=
  calculatePromotions_exclusive egCart100 none (fun _ => 0) [egPromoTen] egOutcomeTen
    (by norm_num [calculatePromotions, selectLoop, checkConditions, condMatches,
      calculatePromoDiscount, usageLimitReject, userLimitReject, canCombine, applyPromo,
      mkApplied, natTruthy, qTruthy, strTruthy, jsNum, egPromoTen, egCart100, egResultTen,
      egOutcomeTen])
    (by simp)

/-- C6: an applied promotion always passed the usage checks: a promotion at
its total usage limit (`maxUsesTotal` truthy and `usageCount ≥ maxUsesTotal`)
never appears in `appliedPromotions`; with a customer identifier supplied, a
promotion at that customer's per-user limit never appears; and with no
customer identifier the per-user lookup is never consulted, so the outcome is
the same for every lookup function (anonymous carts are not limited per
user). -/
theorem usage_limits_enforced (cart : Cart) (userEmail : Option String)
    (userUsage : String → Nat) (promos : List Promotion) (out : PromoOutcome)
    (hids : (promos.map Promotion.id).Nodup)
    (h : calculatePromotions cart userEmail userUsage promos = some out) :
    (∀ p ∈ promos, ∀ m, p.maxUsesTotal = some m → m ≠ 0 → m ≤ p.usageCount →
      ∀ a ∈ out.appliedPromotions, a.id ≠ p.id) ∧
    (∀ p ∈ promos, ∀ m e, p.maxUsesPerUser = some m → m ≠ 0 → userEmail = some e →
      e ≠ "" → m ≤ userUsage p.id →
      ∀ a ∈ out.appliedPromotions, a.id ≠ p.id) ∧
    (userEmail = none → ∀ usage2 : String → Nat,
      calculatePromotions cart none usage2 promos = some out) := by
  have hcommon : ∀ a ∈ out.appliedPromotions, ∃ q : Promotion, q ∈ promos ∧
      usageLimitReject q = false ∧ userLimitReject q userEmail userUsage = false ∧
      a.id = q.id := by
    unfold calculatePromotions at h
    split at h
    · exact absurd h (by simp)
    next st hsel =>
      injection h with h
      subst h
      obtain ⟨ps, ha, hs, _, hg⟩ := selectLoop_sound cart userEmail userUsage promos _ _ hsel
      intro a haMem
      simp only at haMem
      rw [ha] at haMem
      simp only [List.nil_append] at haMem
      obtain ⟨pr, hprMem, hae⟩ := List.mem_map.mp haMem
      have hq := hg pr hprMem
      have hfst : pr.1 ∈ promos := hs.subset (List.mem_map_of_mem _ hprMem)
      exact ⟨pr.1, hfst, hq.1, hq.2.1, by rw [← hae]; rfl⟩
  refine ⟨?_, ?_, ?_⟩
  · intro p hp m hm hm0 hcnt a haMem hideq
    obtain ⟨q, hqmem, hqrej, _, haq⟩ := hcommon a haMem
    have hqp : q = p :=
      List.inj_on_of_nodup_map hids hqmem hp (by rw [← haq, hideq])
    rw [hqp] at hqrej
    have : usageLimitReject p = true := by
      simp [usageLimitReject, hm, natTruthy, hm0, hcnt]
    simp [this] at hqrej
  · intro p hp m e hm hm0 he he0 hcnt a haMem hideq
    obtain ⟨q, hqmem, _, hqrej, haq⟩ := hcommon a haMem
    have hqp : q = p :=
      List.inj_on_of_nodup_map hids hqmem hp (by rw [← haq, hideq])
    rw [hqp] at hqrej
    have : userLimitReject p userEmail userUsage = true := by
      simp [userLimitReject, hm, natTruthy, hm0, he, strTruthy, he0, hcnt]
    simp [this] at hqrej
  · intro he usage2
    subst he
    have hirr := selectLoop_usage_irrelevant cart userUsage usage2 promos
      { totalDiscount := 0, appliedPromotions := [], giftProducts := [],
        processedPromoIds := [] }
    unfold calculatePromotions at h ⊢
    rw [← hirr]
    exact h

/-- Witness for C6: a promotion with `maxUsesTotal = 5` and `usageCount = 5`
on an anonymous cart is skipped; the run completes with no applied
promotions. -/
theorem usage_limits_enforced_witness :
    (∀ p ∈ [egPromoMaxed], ∀ m, p.maxUsesTotal = some m → m ≠ 0 → m ≤ p.usageCount →
      ∀ a ∈ egOutcomeNoPromos.appliedPromotions, a.id ≠ p.id) ∧
    (∀ p ∈ [egPromoMaxed], ∀ m e, p.maxUsesPerUser = some m → m ≠ 0 →
      (none : Option String) = some e → e ≠ "" → m ≤ (fun _ : String => 0) p.id →
      ∀ a ∈ egOutcomeNoPromos.appliedPromotions, a.id ≠ p.id) ∧
    ((none : Option String) = none → ∀ usage2 : String → Nat,
      calculatePromotions egCart100 none usage2 [egPromoMaxed] = some egOutcomeNoPromos) :=
  usage_limits_enforced egCart100 none (fun _ => 0) [egPromoMaxed] egOutcomeNoPromos
    (by simp)
    (by norm_num [calculatePromotions, selectLoop, usageLimitReject, natTruthy,
      egPromoMaxed, egCart100, egOutcomeNoPromos])

/-- Witness for C4 (amended): a one-line cart forms no complete group and
gets no discount; the four-line identical-price cart gets 2 × 10 = 20. -/
theorem calculateBOGODiscount_spec_witness :
    (calculateBOGODiscount egBogo11 egCartOne).discount = 0 ∧
    (calculateBOGODiscount egBogo11 egCart4).discount = 2 * 10 :=
  ⟨(calculateBOGODiscount_spec egBogo11 egCartOne).1 (by decide),
   by norm_num [calculateBOGODiscount, bogoSortedItems, egBogo11, egCart4, egItem, egProduct,
     List.insertionSort, List.orderedInsert, List.range_succ, List.filterMap_cons,
     List.getElem?_cons_zero, List.getElem?_cons_succ]⟩

end MerchPromo

